import Mathlib

/-
  Verification development for the github-sentinel repository.

  Shallow embedding of the update-polling and orchestration engine:
  - src/services/github_service.py  (rate-limited client, datetime handling)
  - src/services/update_service.py  (fetch orchestrator, filter pipeline)
  - src/services/subscription_service.py (checkpoint write-back)
  - src/main.py                     (daily scan pass)
  - src/utils/scheduler.py          (periodic task dispatch)

  Python datetimes are modeled as an instant in epoch seconds plus a
  timezone-awareness flag; machine JSON bodies, logging and I/O are
  abstracted away.  Collaborator calls made through dynamic attribute
  lookup (the per-kind GitHub fetch methods) are modeled as an explicit
  record of fetch functions, with the real instantiation reflecting the
  methods actually defined in class GitHubService.
-/

namespace Sentinel

/-- Python datetime: the represented instant in epoch seconds and whether the
object carries tzinfo (timezone-aware) or not (naive). -/
structure PyDateTime where
  seconds : Int
  aware : Bool
deriving DecidableEq

/-- Errors raised by the embedded code paths.  In the Python source all of
these are plain `Exception` values distinguished only by their message;
the constructors mirror the distinct raise sites. -/
inductive PyError where
  /-- AttributeError from looking up a method name the class does not define. -/
  | attributeError (name : String)
  /-- Raised by _make_request on HTTP 403 (message GitHub API访问被拒绝). -/
  | apiForbidden (status : Nat)
  /-- Raised by _make_request on HTTP 404 (message GitHub资源未找到). -/
  | apiNotFound
  /-- Raised by _make_request on any other non-200 status, 401 included
  (message GitHub API请求失败: status). -/
  | apiRequestFailed (status : Nat)
  /-- Raised by _make_request on asyncio.TimeoutError (message GitHub API请求超时). -/
  | apiTimeout
  /-- TypeError from comparing a naive datetime with an aware one. -/
  | typeError
deriving DecidableEq

/-- One observed change, from src/models/repository.py class RepositoryUpdate.
The kind-specific metadata dict is omitted: no modeled path reads it. -/
structure RepositoryUpdate where
  repo_name : String
  owner : String
  update_type : String
  title : String
  description : Option String
  url : String
  author : String
  created_at : PyDateTime
deriving DecidableEq

/-- Enabled update kinds, from src/models/subscription.py class UpdateType. -/
inductive UpdateType where
  | commits | issues | pull_requests | releases | all
deriving DecidableEq

/-- Filter rule set attached to a subscription (the filters dict read by
UpdateService._apply_filters).  In Python a rule applies only when its key is
present with a truthy (non-empty) value; an empty list models an absent or
empty rule, which the code skips. -/
structure Filters where
  authors : List String
  exclude_authors : List String
  keywords : List String
  exclude_keywords : List String
  update_types : List String
deriving DecidableEq

/-- One watched repository, from src/models/subscription.py class Subscription.
Fields not read by the modeled paths (repo_url, notification_types,
notification_config, created_at) are omitted; frequency is the enum value
string (daily, weekly or both). -/
structure Subscription where
  id : String
  owner : String
  repo_name : String
  update_types : List UpdateType
  frequency : String
  last_checked : Option PyDateTime
  is_active : Bool
  filters : Option Filters
deriving DecidableEq

/- ------------------------------------------------------------------
   github_service.py : datetime normalization helpers
   ------------------------------------------------------------------ -/

/-- An ISO-8601 timestamp string, abstracted to the instant it denotes and
whether the text carries a UTC offset or trailing Z. -/
structure IsoTimestamp where
  seconds : Int
  hasOffset : Bool
deriving DecidableEq

/-- Models datetime.fromisoformat: the parsed datetime is timezone-aware
exactly when the string carries an offset. -/
def fromIsoformat (ts : IsoTimestamp) : PyDateTime :=
  { seconds := ts.seconds, aware := ts.hasOffset }

/-- Models parse_github_datetime (github_service.py lines 16-30): a trailing Z
is first rewritten to +00:00 (so a Z-suffixed string parses as aware), and a
naive parse result gets UTC tzinfo attached.  The ValueError fallback returns
datetime.now(timezone.utc), which is likewise aware; only well-formed inputs
are modeled. -/
def parse_github_datetime (ts : IsoTimestamp) : PyDateTime :=
  let dt := fromIsoformat ts
  if dt.aware then dt else { seconds := dt.seconds, aware := true }

/-- Models ensure_utc_datetime (github_service.py lines 33-43): a naive
datetime gets UTC tzinfo attached, an aware one is converted to UTC; either
way the result is aware and denotes the same stored instant. -/
def ensure_utc_datetime (dt : PyDateTime) : PyDateTime :=
  { seconds := dt.seconds, aware := true }

/-- Python comparison a < b on datetimes: raises TypeError when one operand is
naive and the other aware. -/
def pyLt (a b : PyDateTime) : Except PyError Bool :=
  if a.aware = b.aware then .ok (decide (a.seconds < b.seconds))
  else .error .typeError

/-- Python comparison a > b on datetimes: raises TypeError when one operand is
naive and the other aware. -/
def pyGt (a b : PyDateTime) : Except PyError Bool :=
  if a.aware = b.aware then .ok (decide (b.seconds < a.seconds))
  else .error .typeError

/-- The until-check inside get_issues (github_service.py lines 175-179): the
boundary is normalized with ensure_utc_datetime and the item timestamp parsed
with parse_github_datetime before the comparison updated_at > until. -/
def issuesUntilCheck (item : IsoTimestamp) (untilDt : PyDateTime) : Except PyError Bool :=
  pyGt (parse_github_datetime item) (ensure_utc_datetime untilDt)

/-- The since-check inside get_pull_requests (github_service.py lines 216-220):
the item timestamp is parsed via fromisoformat after a Z to +00:00 replacement
(hence aware) and compared with updated_at < since, without normalizing the
since argument. -/
def prSinceCheck (item : IsoTimestamp) (since : PyDateTime) : Except PyError Bool :=
  pyLt (fromIsoformat { item with hasOffset := true }) since

/- ------------------------------------------------------------------
   github_service.py : rate limiting and request dispatch
   ------------------------------------------------------------------ -/

/-- Mutable client state touched by _check_rate_limit and _make_request:
self.requests_made and self.last_reset (an aware UTC instant, in seconds). -/
structure RateState where
  requests_made : Nat
  last_reset : Int
deriving DecidableEq

/-- Models _check_rate_limit (github_service.py lines 64-77).  Returns the
seconds slept together with the updated state.  The sleep is idealized as
exact: after sleeping wait seconds, datetime.now() reads now + wait. -/
def checkRateLimit (limit : Nat) (st : RateState) (now : Int) : Int × RateState :=
  let st1 := if 3600 < now - st.last_reset then
      { requests_made := 0, last_reset := now } else st
  if limit ≤ st1.requests_made then
    let wait := 3600 - (now - st1.last_reset)
    if 0 < wait then (wait, { requests_made := 0, last_reset := now + wait })
    else (0, st1)
  else (0, st1)

/-- Outcome of one HTTP attempt inside _make_request: either an HTTP response
with some status code, or an asyncio.TimeoutError from the transport. -/
inductive HttpAttempt where
  | response (status : Nat)
  | timeout
deriving DecidableEq

/-- Models the response handling of _make_request (github_service.py lines
84-106) acting on self.requests_made: the counter is incremented as the first
statement inside the response block, then the status dispatch runs; a
transport timeout raises before the increment is reached.  The JSON body of a
200 response is abstracted to Unit. -/
def makeRequest (requests_made : Nat) (attempt : HttpAttempt) :
    Nat × Except PyError Unit :=
  match attempt with
  | .response status =>
      (requests_made + 1,
        if status = 200 then .ok ()
        else if status = 403 then .error (.apiForbidden status)
        else if status = 404 then .error .apiNotFound
        else .error (.apiRequestFailed status))
  | .timeout => (requests_made, .error .apiTimeout)

/- ------------------------------------------------------------------
   update_service.py : filter pipeline
   ------------------------------------------------------------------ -/

/-- Models the Python truthiness test on an optional string: None and the
empty string are falsy. -/
def pyTruthyStr : Option String → Bool
  | none => false
  | some s => !s.isEmpty

/-- Case-insensitive substring test, modeling the Python expression
kw in text.lower() with kw already lowercased. -/
def containsSub (text kw : String) : Bool :=
  (text.toLower.data.tails).any (fun t => kw.toLower.data.isPrefixOf t)

/-- One keyword test from _apply_filters: kw in u.title.lower() or
(u.description and kw in u.description.lower()). -/
def matchesKeyword (u : RepositoryUpdate) (kw : String) : Bool :=
  containsSub u.title kw ||
    (pyTruthyStr u.description && containsSub (u.description.getD "") kw)

/-- One conditional stage of _apply_filters: when the rule is absent or empty
(skip = true) the list passes through, otherwise it is filtered. -/
def condFilter (skip : Bool) (p : α → Bool) (l : List α) : List α :=
  if skip then l else l.filter p

/-- Models UpdateService._apply_filters (update_service.py lines 118-162): the
five rules applied conjunctively in source order, each only when present and
non-empty.  All per-element rule evaluations are total on the modeled types,
so the fail-open exception handler is unreachable. -/
def applyFilters (updates : List RepositoryUpdate) (f : Filters) :
    List RepositoryUpdate :=
  condFilter f.update_types.isEmpty (fun u => f.update_types.contains u.update_type)
    (condFilter f.exclude_keywords.isEmpty
      (fun u => !f.exclude_keywords.any (fun kw => matchesKeyword u kw))
      (condFilter f.keywords.isEmpty
        (fun u => f.keywords.any (fun kw => matchesKeyword u kw))
        (condFilter f.exclude_authors.isEmpty
          (fun u => !f.exclude_authors.contains u.author)
          (condFilter f.authors.isEmpty
            (fun u => f.authors.contains u.author) updates))))

/- ------------------------------------------------------------------
   update_service.py : fetch orchestration
   ------------------------------------------------------------------ -/

/-- The def names appearing in the body of class GitHubService
(github_service.py).  No get_recent_commits, get_recent_issues,
get_recent_pull_requests or get_recent_releases is among them. -/
def gitHubServiceMethodNames : List String :=
  ["__init__", "_check_rate_limit", "_make_request", "get_repository_info",
   "get_repository_updates", "get_issues", "get_pull_requests",
   "export_daily_progress", "_generate_markdown_content"]

/-- The four per-kind fetch calls that _fetch_single_repo_updates makes on
self.github_service, kept as an explicit record so that the orchestration
logic can be stated for any collaborator behavior and then instantiated with
the real one. -/
structure KindFetchers where
  get_recent_commits : String → String → PyDateTime → Except PyError (List RepositoryUpdate)
  get_recent_issues : String → String → PyDateTime → Except PyError (List RepositoryUpdate)
  get_recent_pull_requests : String → String → PyDateTime → Except PyError (List RepositoryUpdate)
  get_recent_releases : String → String → PyDateTime → Except PyError (List RepositoryUpdate)

/-- Python attribute lookup for a method name on a GitHubService instance:
a name not defined in the class body raises AttributeError at the call. -/
def callMethodOn (name : String) :
    String → String → PyDateTime → Except PyError (List RepositoryUpdate) :=
  fun _ _ _ =>
    if gitHubServiceMethodNames.contains name then .ok []
    else .error (.attributeError name)

/-- The real collaborator: each per-kind call is a dynamic attribute lookup on
GitHubService, and none of the four names is defined there, so each raises
AttributeError (the condition in callMethodOn is decidably false for all
four names). -/
def realKindFetchers : KindFetchers where
  get_recent_commits := callMethodOn "get_recent_commits"
  get_recent_issues := callMethodOn "get_recent_issues"
  get_recent_pull_requests := callMethodOn "get_recent_pull_requests"
  get_recent_releases := callMethodOn "get_recent_releases"

/-- The kind-dispatch part of _fetch_single_repo_updates (update_service.py
lines 73-105): one sequence of awaited calls, so the first raising call
aborts the remaining ones and propagates its exception. -/
def fetchKindUpdatesWith (gh : KindFetchers) (sub : Subscription)
    (effSince : PyDateTime) : Except PyError (List RepositoryUpdate) :=
  if sub.update_types.contains UpdateType.all then
    (gh.get_recent_commits sub.owner sub.repo_name effSince).bind fun commits =>
    (gh.get_recent_issues sub.owner sub.repo_name effSince).bind fun issues =>
    (gh.get_recent_pull_requests sub.owner sub.repo_name effSince).bind fun prs =>
    (gh.get_recent_releases sub.owner sub.repo_name effSince).bind fun releases =>
    .ok (commits ++ issues ++ prs ++ releases)
  else
    (if sub.update_types.contains UpdateType.commits then
        gh.get_recent_commits sub.owner sub.repo_name effSince else .ok []).bind fun c =>
    (if sub.update_types.contains UpdateType.issues then
        gh.get_recent_issues sub.owner sub.repo_name effSince else .ok []).bind fun i =>
    (if sub.update_types.contains UpdateType.pull_requests then
        gh.get_recent_pull_requests sub.owner sub.repo_name effSince else .ok []).bind fun p =>
    (if sub.update_types.contains UpdateType.releases then
        gh.get_recent_releases sub.owner sub.repo_name effSince else .ok []).bind fun r =>
    .ok (c ++ i ++ p ++ r)

/-- Models _fetch_single_repo_updates (update_service.py lines 64-116):
effective since is last_checked when present, the kind fetches run inside one
try whose except handler returns [], and the subscription's filters are
applied to a successful result. -/
def fetchSingleRepoUpdatesWith (gh : KindFetchers) (sub : Subscription)
    (since : PyDateTime) : List RepositoryUpdate :=
  match fetchKindUpdatesWith gh sub (sub.last_checked.getD since) with
  | .error _ => []
  | .ok updates =>
      match sub.filters with
      | some f => applyFilters updates f
      | none => updates

/-- The since boundary built in fetch_updates (update_service.py line 32):
datetime.now() - timedelta(days=days); datetime.now() without an argument is
naive, so the result is naive. -/
def fetchUpdatesSince (nowT : Int) (days : Int) : PyDateTime :=
  { seconds := nowT - days * 86400, aware := false }

/-- The merged-sort comparison of fetch_updates line 59:
sort(key=created_at, reverse=True). -/
def sortKeyDesc (a b : RepositoryUpdate) : Bool :=
  decide (b.created_at.seconds ≤ a.created_at.seconds)

/-- Models UpdateService.fetch_updates (update_service.py lines 27-62): empty
input short-circuits; every subscription's per-repo fetch runs (each already
absorbs its own failures into []), results are concatenated in subscription
order by asyncio.gather, and the merge is a stable sort by created_at
descending.  The semaphore only bounds concurrency and does not affect the
value. -/
def fetchUpdatesWith (gh : KindFetchers) (subs : List Subscription)
    (nowT : Int) (days : Int) : List RepositoryUpdate :=
  if subs.isEmpty then []
  else
    ((subs.map (fun sub =>
        fetchSingleRepoUpdatesWith gh sub (fetchUpdatesSince nowT days))).flatten).mergeSort
      sortKeyDesc

/- ------------------------------------------------------------------
   subscription_service.py and main.py : checkpointing
   ------------------------------------------------------------------ -/

/-- Models SubscriptionService.update_last_checked (subscription_service.py
lines 145-167): every stored subscription whose id is in the list gets
last_checked := datetime.now(), a naive timestamp read at time nowT. -/
def update_last_checked (subs : List Subscription) (ids : List String)
    (nowT : Int) : List Subscription :=
  subs.map (fun s =>
    if ids.contains s.id then
      { s with last_checked := some { seconds := nowT, aware := false } }
    else s)

/-- Whether the asyncio event loop that _run_scheduler stores in self.loop is
ever run.  _run_scheduler (scheduler.py lines 64-83) creates the loop with
asyncio.new_event_loop and then only iterates schedule.run_pending with a 60
second wait; no statement in the repository calls run_forever or
run_until_complete on self.loop (main.py line 154 runs the main thread's own
loop, web_service.py runs fresh local loops), so self.loop never processes
the work submitted to it. -/
def schedulerLoopRuns : Bool := false

/-- One _schedule_async_task dispatch (scheduler.py lines 31-51), given
whether the target loop is running and the task body's duration: the pair of
how long the scheduler thread blocks inside future.result(timeout=300) and
whether the task body executes at all.  run_coroutine_threadsafe only hands
the coroutine to the target loop: when that loop is running, the body
executes and the future resolves after the task's duration, so the waiting
thread blocks for the duration capped at the 300 second timeout; when the
loop never runs, the future never resolves, future.result raises its timeout
error after the full 300 seconds, and the body never starts. -/
def dispatchOutcome (loopRunning : Bool) (duration : Nat) : Nat × Bool :=
  if loopRunning then (min duration 300, true) else (300, false)

/-- The task body of a dispatch started at instant s with the given duration
is executing at instant t; a dispatch whose body never executes occupies no
instant. -/
def invocationRunningAt (executes : Bool) (s d t : Nat) : Bool :=
  executes && decide (s ≤ t) && decide (t < s + d)

/- ------------------------------------------------------------------
   Specification-side merge order (refinement target for the tie-break)
   ------------------------------------------------------------------ -/

/-- Lexicographic strict order on character lists (spec-side helper). -/
def lexLtChars : List Char → List Char → Bool
  | [], [] => false
  | [], _ :: _ => true
  | _ :: _, [] => false
  | a :: as, b :: bs =>
    if a < b then true else if b < a then false else lexLtChars as bs

/-- Lexicographic strict order on strings (spec-side helper). -/
def strLexLt (a b : String) : Bool :=
  lexLtChars a.data b.data

/-- Modeled from the spec words, not from the code: merge order is creation
timestamp descending with ties broken by (owner, repo, kind) lexical order. -/
def specMergeLe (a b : RepositoryUpdate) : Bool :=
  if a.created_at.seconds = b.created_at.seconds then
    strLexLt a.owner b.owner ||
      (a.owner == b.owner &&
        (strLexLt a.repo_name b.repo_name ||
          (a.repo_name == b.repo_name &&
            (strLexLt a.update_type b.update_type ||
              a.update_type == b.update_type))))
  else decide (b.created_at.seconds < a.created_at.seconds)

/-- Modeled from the spec words: the list is sorted when every adjacent pair
respects specMergeLe. -/
def specTieSorted : List RepositoryUpdate → Bool
  | [] => true
  | [_] => true
  | a :: b :: rest => specMergeLe a b && specTieSorted (b :: rest)

/- ------------------------------------------------------------------
   Concrete scenario data used by the counterexample and witness theorems
   ------------------------------------------------------------------ -/

/-- Daily subscription whose per-repo fetch fails in the scenarios below; it
has an existing checkpoint. -/
def subA : Subscription :=
  { id := "sub-a", owner := "alpha", repo_name := "r",
    update_types := [UpdateType.commits], frequency := "daily",
    last_checked := some { seconds := 10, aware := false },
    is_active := true, filters := none }

/-- A commit record for the kind-isolation scenario. -/
def recC : RepositoryUpdate :=
  { repo_name := "r", owner := "gamma", update_type := "commits",
    title := "add feature", description := none, url := "u", author := "carol",
    created_at := { seconds := 60, aware := true } }

/-- Subscription with two enabled kinds, commits and issues. -/
def subCI : Subscription :=
  { id := "sub-ci", owner := "gamma", repo_name := "r",
    update_types := [UpdateType.commits, UpdateType.issues],
    frequency := "daily", last_checked := none, is_active := true,
    filters := none }

/-- Collaborator whose commit fetch succeeds with one record while the issue
fetch raises. -/
def ghKindSplit : KindFetchers where
  get_recent_commits := fun _ _ _ => .ok [recC]
  get_recent_issues := fun _ _ _ => .error .apiNotFound
  get_recent_pull_requests := fun _ _ _ => .ok []
  get_recent_releases := fun _ _ _ => .ok []

/-- Tie scenario record from the zeta subscription (lexically later owner). -/
def recZ : RepositoryUpdate :=
  { repo_name := "r", owner := "zeta", update_type := "commits",
    title := "z change", description := none, url := "u", author := "zoe",
    created_at := { seconds := 70, aware := true } }

/-- Tie scenario record from the apex subscription (lexically earlier owner),
with the same creation timestamp as recZ. -/
def recAlpha : RepositoryUpdate :=
  { repo_name := "r", owner := "apex", update_type := "commits",
    title := "a change", description := none, url := "u", author := "amy",
    created_at := { seconds := 70, aware := true } }

/-- Subscription listed first, owning recZ. -/
def subZ : Subscription :=
  { id := "sub-z", owner := "zeta", repo_name := "r",
    update_types := [UpdateType.commits], frequency := "daily",
    last_checked := none, is_active := true, filters := none }

/-- Subscription listed second, owning recAlpha. -/
def subAlpha : Subscription :=
  { id := "sub-apex", owner := "apex", repo_name := "r",
    update_types := [UpdateType.commits], frequency := "daily",
    last_checked := none, is_active := true, filters := none }

/-- Collaborator returning one record per owner for the tie scenario. -/
def ghTie : KindFetchers where
  get_recent_commits := fun owner _ _ =>
    if owner == "zeta" then .ok [recZ] else .ok [recAlpha]
  get_recent_issues := fun _ _ _ => .ok []
  get_recent_pull_requests := fun _ _ _ => .ok []
  get_recent_releases := fun _ _ _ => .ok []

/- ------------------------------------------------------------------
   Helper lemmas about the filter pipeline
   ------------------------------------------------------------------ -/

theorem condFilter_sublist (b : Bool) (p : α → Bool) (l : List α) :
    (condFilter b p l).Sublist l := by
  unfold condFilter
  by_cases hb : b = true
  · rw [if_pos hb]
  · rw [if_neg hb]
    exact List.filter_sublist l

theorem mem_condFilter {b : Bool} {p : α → Bool} {l : List α} {x : α}
    (h : x ∈ condFilter b p l) : x ∈ l ∧ (b = true ∨ p x = true) := by
  unfold condFilter at h
  by_cases hb : b = true
  · rw [if_pos hb] at h
    exact ⟨h, Or.inl hb⟩
  · rw [if_neg hb] at h
    rw [List.mem_filter] at h
    exact ⟨h.1, Or.inr h.2⟩

theorem condFilter_eq_self {b : Bool} {p : α → Bool} {l : List α}
    (h : ∀ x ∈ l, b = true ∨ p x = true) : condFilter b p l = l := by
  unfold condFilter
  by_cases hb : b = true
  · rw [if_pos hb]
  · rw [if_neg hb]
    refine List.filter_eq_self.mpr ?_
    intro a ha
    rcases h a ha with h1 | h2
    · exact absurd h1 hb
    · exact h2

theorem applyFilters_sublist (l : List RepositoryUpdate) (f : Filters) :
    (applyFilters l f).Sublist l := by
  unfold applyFilters
  exact ((((condFilter_sublist _ _ _).trans (condFilter_sublist _ _ _)).trans
    (condFilter_sublist _ _ _)).trans (condFilter_sublist _ _ _)).trans
    (condFilter_sublist _ _ _)

theorem mem_applyFilters {l : List RepositoryUpdate} {f : Filters}
    {x : RepositoryUpdate} (h : x ∈ applyFilters l f) :
    x ∈ l ∧
    (f.authors.isEmpty = true ∨ f.authors.contains x.author = true) ∧
    (f.exclude_authors.isEmpty = true ∨
      (!f.exclude_authors.contains x.author) = true) ∧
    (f.keywords.isEmpty = true ∨
      (f.keywords.any fun kw => matchesKeyword x kw) = true) ∧
    (f.exclude_keywords.isEmpty = true ∨
      (!f.exclude_keywords.any fun kw => matchesKeyword x kw) = true) ∧
    (f.update_types.isEmpty = true ∨
      f.update_types.contains x.update_type = true) := by
  unfold applyFilters at h
  obtain ⟨h4, c5⟩ := mem_condFilter h
  obtain ⟨h3, c4⟩ := mem_condFilter h4
  obtain ⟨h2, c3⟩ := mem_condFilter h3
  obtain ⟨h1, c2⟩ := mem_condFilter h2
  obtain ⟨h0, c1⟩ := mem_condFilter h1
  exact ⟨h0, c1, c2, c3, c4, c5⟩

theorem applyFilters_eq_self {m : List RepositoryUpdate} {f : Filters}
    (h : ∀ x ∈ m,
      (f.authors.isEmpty = true ∨ f.authors.contains x.author = true) ∧
      (f.exclude_authors.isEmpty = true ∨
        (!f.exclude_authors.contains x.author) = true) ∧
      (f.keywords.isEmpty = true ∨
        (f.keywords.any fun kw => matchesKeyword x kw) = true) ∧
      (f.exclude_keywords.isEmpty = true ∨
        (!f.exclude_keywords.any fun kw => matchesKeyword x kw) = true) ∧
      (f.update_types.isEmpty = true ∨
        f.update_types.contains x.update_type = true)) :
    applyFilters m f = m := by
  unfold applyFilters
  rw [condFilter_eq_self (fun x hx => (h x hx).1)]
  rw [condFilter_eq_self (fun x hx => (h x hx).2.1)]
  rw [condFilter_eq_self (fun x hx => (h x hx).2.2.1)]
  rw [condFilter_eq_self (fun x hx => (h x hx).2.2.2.1)]
  rw [condFilter_eq_self (fun x hx => (h x hx).2.2.2.2)]

theorem applyFilters_nil (f : Filters) : applyFilters [] f = [] := by
  unfold applyFilters condFilter
  simp

/-- C8: applying the filter pipeline twice yields the same list as applying
it once, and the output preserves the relative order of the input (it is a
sublist of the input). -/
theorem applyFilters_idempotent_and_order_preserving
    (updates : List RepositoryUpdate) (f : Filters) :
    applyFilters (applyFilters updates f) f = applyFilters updates f ∧
    (applyFilters updates f).Sublist updates := by
  refine ⟨?_, applyFilters_sublist updates f⟩
  exact applyFilters_eq_self (fun x hx => (mem_applyFilters hx).2)

/- ------------------------------------------------------------------
   Helper lemmas about the fetch path
   ------------------------------------------------------------------ -/

theorem sortKeyDesc_trans : ∀ a b c : RepositoryUpdate,
    sortKeyDesc a b = true → sortKeyDesc b c = true → sortKeyDesc a c = true := by
  intro a b c
  unfold sortKeyDesc
  simp only [decide_eq_true_eq]
  omega

theorem sortKeyDesc_total : ∀ a b : RepositoryUpdate,
    (sortKeyDesc a b || sortKeyDesc b a) = true := by
  intro a b
  unfold sortKeyDesc
  simp only [Bool.or_eq_true, decide_eq_true_eq]
  omega

theorem fetchKind_real (sub : Subscription) (effSince : PyDateTime) :
    fetchKindUpdatesWith realKindFetchers sub effSince = .ok [] ∨
    ∃ n, fetchKindUpdatesWith realKindFetchers sub effSince =
      .error (.attributeError n) := by
  unfold fetchKindUpdatesWith realKindFetchers callMethodOn
  have e1 : "get_recent_commits" ∉ gitHubServiceMethodNames := by decide
  have e2 : "get_recent_issues" ∉ gitHubServiceMethodNames := by decide
  have e3 : "get_recent_pull_requests" ∉ gitHubServiceMethodNames := by decide
  have e4 : "get_recent_releases" ∉ gitHubServiceMethodNames := by decide
  by_cases hall : UpdateType.all ∈ sub.update_types
  · right
    exact ⟨"get_recent_commits", by simp [hall, e1, Except.bind]⟩
  · by_cases h1 : UpdateType.commits ∈ sub.update_types
    · right
      exact ⟨"get_recent_commits", by simp [hall, h1, e1, Except.bind]⟩
    · by_cases h2 : UpdateType.issues ∈ sub.update_types
      · right
        exact ⟨"get_recent_issues", by simp [hall, h1, h2, e2, Except.bind]⟩
      · by_cases h3 : UpdateType.pull_requests ∈ sub.update_types
        · right
          exact ⟨"get_recent_pull_requests", by simp [hall, h1, h2, h3, e3, Except.bind]⟩
        · by_cases h4 : UpdateType.releases ∈ sub.update_types
          · right
            exact ⟨"get_recent_releases", by simp [hall, h1, h2, h3, h4, e4, Except.bind]⟩
          · left
            simp [hall, h1, h2, h3, h4, Except.bind]

theorem fetchSingle_real (sub : Subscription) (since : PyDateTime) :
    fetchSingleRepoUpdatesWith realKindFetchers sub since = [] := by
  unfold fetchSingleRepoUpdatesWith
  rcases fetchKind_real sub (sub.last_checked.getD since) with h | ⟨n, h⟩
  · rw [h]
    cases hf : sub.filters with
    | none => rfl
    | some f => exact applyFilters_nil f
  · rw [h]

/-- C2: with the real collaborator every per-kind fetch is an attribute lookup
for a name class GitHubService does not define, the resulting AttributeError
is absorbed by the handler in _fetch_single_repo_updates, and fetch_updates
returns the empty list for every input. -/
theorem fetch_updates_always_empty :
    gitHubServiceMethodNames.contains "get_recent_commits" = false ∧
    gitHubServiceMethodNames.contains "get_recent_issues" = false ∧
    gitHubServiceMethodNames.contains "get_recent_pull_requests" = false ∧
    gitHubServiceMethodNames.contains "get_recent_releases" = false ∧
    (∀ sub since, fetchSingleRepoUpdatesWith realKindFetchers sub since = []) ∧
    (∀ subs nowT days, fetchUpdatesWith realKindFetchers subs nowT days = []) := by
  refine ⟨by decide, by decide, by decide, by decide, fetchSingle_real, ?_⟩
  intro subs nowT days
  unfold fetchUpdatesWith
  by_cases hs : subs.isEmpty = true
  · rw [if_pos hs]
  · rw [if_neg hs]
    have hflat : (subs.map (fun sub =>
        fetchSingleRepoUpdatesWith realKindFetchers sub
          (fetchUpdatesSince nowT days))).flatten = [] := by
      refine List.flatten_eq_nil_iff.mpr ?_
      intro l hl
      rcases List.mem_map.mp hl with ⟨sub, _, rfl⟩
      exact fetchSingle_real sub _
    rw [hflat, List.mergeSort_nil]

/-- C5 amended: the merged list is sorted by creation timestamp descending and
is a permutation of the concatenation of the per-subscription results; tie
handling is whatever the stable sort inherits from the input order. -/
theorem fetchUpdates_sorted_desc (gh : KindFetchers) (subs : List Subscription)
    (nowT days : Int) :
    List.Pairwise (fun a b => sortKeyDesc a b = true)
      (fetchUpdatesWith gh subs nowT days) ∧
    (fetchUpdatesWith gh subs nowT days).Perm
      ((subs.map (fun sub =>
        fetchSingleRepoUpdatesWith gh sub (fetchUpdatesSince nowT days))).flatten) := by
  unfold fetchUpdatesWith
  by_cases hs : subs.isEmpty = true
  · rw [if_pos hs]
    rw [List.isEmpty_iff.mp hs]
    simp
  · rw [if_neg hs]
    exact ⟨List.sorted_mergeSort sortKeyDesc_trans sortKeyDesc_total _,
      List.mergeSort_perm _ _⟩

/-- C5 counterexample: with both records carrying the same creation timestamp
and the lexically later (owner, repo, kind) key listed first, the merged list
keeps the input order, so it is not sorted by the spec's tie-break order. -/
theorem merge_tiebreak_counterexample :
    fetchUpdatesWith ghTie [subZ, subAlpha] 1000 1 = [recZ, recAlpha] ∧
    specTieSorted [recZ, recAlpha] = false ∧
    specTieSorted [recAlpha, recZ] = true := by
  refine ⟨?_, by decide, by decide⟩
  unfold fetchUpdatesWith
  rw [if_neg (by decide)]
  rw [show ([subZ, subAlpha].map (fun sub =>
      fetchSingleRepoUpdatesWith ghTie sub (fetchUpdatesSince 1000 1))).flatten
    = [recZ, recAlpha] from by decide]
  exact List.mergeSort_of_sorted (by decide)

/- ------------------------------------------------------------------
   Checkpointing (C1) and 401 handling (C3)
   ------------------------------------------------------------------ -/

/-- C4 amended: when commits succeed but the issue fetch raises, the single
try around all kind fetches aborts the whole subscription and the handler
returns the empty list, discarding the already fetched commit records. -/
theorem kind_failure_discards_subscription (gh : KindFetchers)
    (sub : Subscription) (since : PyDateTime) (cs : List RepositoryUpdate)
    (e : PyError)
    (hall : UpdateType.all ∉ sub.update_types)
    (hc : UpdateType.commits ∈ sub.update_types)
    (hi : UpdateType.issues ∈ sub.update_types)
    (hok : gh.get_recent_commits sub.owner sub.repo_name
      (sub.last_checked.getD since) = .ok cs)
    (herr : gh.get_recent_issues sub.owner sub.repo_name
      (sub.last_checked.getD since) = .error e) :
    fetchSingleRepoUpdatesWith gh sub since = [] := by
  unfold fetchSingleRepoUpdatesWith fetchKindUpdatesWith
  simp [hall, hc, hi, hok, herr, Except.bind]

/-- Witness for the amended C4 theorem at the concrete split collaborator. -/
theorem kind_failure_discards_subscription_witness :
    fetchSingleRepoUpdatesWith ghKindSplit subCI (fetchUpdatesSince 0 1) = [] :=
  kind_failure_discards_subscription ghKindSplit subCI (fetchUpdatesSince 0 1)
    [recC] .apiNotFound (by decide) (by decide) (by decide) rfl rfl

/-- C4 counterexample: the commit fetch of the subscription succeeds with one
record and the issue fetch fails, yet the subscription's result is empty: the
failing kind did prevent the other kind's record from being included. -/
theorem kind_failure_counterexample :
    ghKindSplit.get_recent_commits subCI.owner subCI.repo_name
      (fetchUpdatesSince 0 1) = .ok [recC] ∧
    ghKindSplit.get_recent_issues subCI.owner subCI.repo_name
      (fetchUpdatesSince 0 1) = .error .apiNotFound ∧
    fetchSingleRepoUpdatesWith ghKindSplit subCI (fetchUpdatesSince 0 1) = [] := by
  exact ⟨rfl, rfl, by decide⟩

/- ------------------------------------------------------------------
   Call counter (C6) and budget window (C7)
   ------------------------------------------------------------------ -/

/-- C6 amended: the call counter is incremented once for every attempt that
receives an HTTP response, whatever the status, but a transport timeout
raises before the increment statement and leaves the counter unchanged. -/
theorem requests_made_increment (n status : Nat) :
    (makeRequest n (.response status)).1 = n + 1 ∧
    (makeRequest n .timeout).1 = n :=
  ⟨rfl, rfl⟩

/-- C6 counterexample: a timed-out attempt leaves the counter at 0 while the
claim requires every attempt, timeouts included, to increment it to 1. -/
theorem requests_made_timeout_counterexample :
    (makeRequest 0 .timeout).1 = 0 ∧
    (makeRequest 0 (.response 500)).1 = 1 := by
  exact ⟨rfl, rfl⟩

/-- C7 amended: characterization of _check_rate_limit.  When strictly more
than 3600 seconds have elapsed the counter resets and the call proceeds; when
the ceiling is reached with strictly positive remaining window the caller
sleeps out the window and the counter resets; when exactly 3600 seconds have
elapsed with the ceiling reached, the code neither sleeps nor resets and the
call proceeds with the counter still at the ceiling; below the ceiling the
state is untouched. -/
theorem checkRateLimit_behavior (limit : Nat) (st : RateState) (now : Int) :
    (3600 < now - st.last_reset → 0 < limit →
      checkRateLimit limit st now = (0, { requests_made := 0, last_reset := now })) ∧
    (now - st.last_reset < 3600 → limit ≤ st.requests_made →
      checkRateLimit limit st now =
        (3600 - (now - st.last_reset),
         { requests_made := 0, last_reset := now + (3600 - (now - st.last_reset)) })) ∧
    (now - st.last_reset = 3600 → limit ≤ st.requests_made →
      checkRateLimit limit st now = (0, st)) ∧
    (now - st.last_reset ≤ 3600 → st.requests_made < limit →
      checkRateLimit limit st now = (0, st)) := by
  refine ⟨?_, ?_, ?_, ?_⟩
  · intro h hl
    unfold checkRateLimit
    rw [if_pos h]
    rw [if_neg (show ¬ limit ≤
      ({ requests_made := 0, last_reset := now } : RateState).requests_made by
        change ¬ limit ≤ 0
        omega)]
  · intro h hl
    unfold checkRateLimit
    rw [if_neg (show ¬ 3600 < now - st.last_reset by omega)]
    rw [if_pos hl]
    rw [if_pos (show (0:Int) < 3600 - (now - st.last_reset) by omega)]
  · intro h hl
    unfold checkRateLimit
    rw [if_neg (show ¬ 3600 < now - st.last_reset by omega)]
    rw [if_pos hl]
    rw [if_neg (show ¬ (0:Int) < 3600 - (now - st.last_reset) by omega)]
  · intro h hl
    unfold checkRateLimit
    rw [if_neg (show ¬ 3600 < now - st.last_reset by omega)]
    rw [if_neg (show ¬ limit ≤ st.requests_made by omega)]

/-- Witness for the amended C7 theorem: at one second before the window edge
with the budget exhausted, the caller sleeps one second and the counter is
zero afterwards. -/
theorem checkRateLimit_behavior_witness :
    checkRateLimit 1 { requests_made := 1, last_reset := 0 } 3599 =
      (1, { requests_made := 0, last_reset := 3600 }) :=
  (checkRateLimit_behavior 1 { requests_made := 1, last_reset := 0 } 3599).2.1
    (by decide) (by decide)

/-- C7 counterexample: at exactly 3600 seconds since the last reset with the
counter at the ceiling, the check neither suspends nor resets; the call
proceeds with the counter still at the ceiling instead of zero. -/
theorem rate_limit_boundary_counterexample :
    checkRateLimit 1 { requests_made := 1, last_reset := 0 } 3600 =
      (0, { requests_made := 1, last_reset := 0 }) := by
  decide

/- ------------------------------------------------------------------
   Timezone normalization (C9)
   ------------------------------------------------------------------ -/

/-- C9 amended: parse_github_datetime and ensure_utc_datetime always produce
aware datetimes and the until-comparison of get_issues never mixes naive with
aware, but the since boundary built by fetch_updates is naive. -/
theorem tz_partial_normalization (ts : IsoTimestamp) (d : PyDateTime)
    (item : IsoTimestamp) (u : PyDateTime) (nowT days : Int) :
    (parse_github_datetime ts).aware = true ∧
    (ensure_utc_datetime d).aware = true ∧
    issuesUntilCheck item u =
      .ok (decide ((ensure_utc_datetime u).seconds <
        (parse_github_datetime item).seconds)) ∧
    (fetchUpdatesSince nowT days).aware = false := by
  refine ⟨?_, rfl, ?_, rfl⟩
  · unfold parse_github_datetime fromIsoformat
    by_cases h : ts.hasOffset = true <;> simp [h]
  · unfold issuesUntilCheck pyGt
    rw [if_pos ?_]
    unfold parse_github_datetime fromIsoformat ensure_utc_datetime
    by_cases h : ts.hasOffset = true <;>
      by_cases hi : item.hasOffset = true <;> simp [h, hi]

/-- C9 counterexample: the fetch-path since boundary is naive, the stored
checkpoint written by update_last_checked is naive, and feeding that since
into the unnormalized comparison of get_pull_requests raises the TypeError
for mixing a naive and an aware datetime. -/
theorem naive_timestamp_counterexample :
    (fetchUpdatesSince 1000 1).aware = false ∧
    (update_last_checked [subA] ["sub-a"] 77).map (fun s => s.last_checked) =
      [some { seconds := 77, aware := false }] ∧
    prSinceCheck { seconds := 500, hasOffset := true }
      (fetchUpdatesSince 1000 1) = .error .typeError := by
  refine ⟨rfl, by decide, rfl⟩

/- ------------------------------------------------------------------
   Scheduler overlap (C10)
   ------------------------------------------------------------------ -/

/-- C10: the scheduler never runs two invocations of the same registered
task concurrently, and for the degenerate reason that it never runs any
invocation at all: the loop _schedule_async_task submits its coroutine to is
never run, so every dispatch blocks the scheduler thread for the full 300
second timeout, executes no task body, and at no instant are two invocations
of a task (or even one) executing. -/
theorem scheduler_never_concurrent_invocations (d1 d2 s1 s2 t : Nat) :
    dispatchOutcome schedulerLoopRuns d1 = (300, false) ∧
    (invocationRunningAt (dispatchOutcome schedulerLoopRuns d1).2 s1 d1 t &&
      invocationRunningAt (dispatchOutcome schedulerLoopRuns d2).2 s2 d2 t)
      = false := by
  exact ⟨rfl, rfl⟩

end Sentinel
